import Mathlib

/-
Verification development for the ComptoxAI graph module
(comptox_ai/graph/graph.py).

The module's `Graph` class wraps a backing data object (`self._data`) and
offers classmethod loaders.  The only implemented loader is
`Graph.from_graphsage(prefix, directory)`, which reads up to five files:
  {prefix}-G.json          (mandatory, node-link JSON graph)
  {prefix}-id_map.json     (mandatory, JSON id map)
  {prefix}-class_map.json  (optional, caught FileNotFoundError -> None)
  {prefix}-feats.npy       (optional, caught FileNotFoundError -> None)
  {prefix}-walks.txt       (optional, caught FileNotFoundError -> None)
and constructs `GraphSAGE(graph=G, node_map=id_map, node_classes=class_map,
node_features=feats_map)`.

We embed the loader shallowly: the file system is a finite association list
from path strings to abstract file contents; each content records the
outcome of the parsers the Python code applies to it (json.load +
node_link_graph, json.load as id map, json.load as class map, np.load) plus
the raw text lines.  Exceptions become an explicit error type, and the
loader additionally returns the trace of file paths it attempted to open,
in order.

The backing-store classes of comptox_ai/graph/io.py (GraphDataMixin,
GraphSAGE, ...) are not part of the analysed sources; where their behaviour
is needed it is modelled from the specification and marked as such.
-/

/-- Python-level exceptions and error classes relevant to the graph module. -/
inductive PyExc where
  | fileNotFoundError
  | jsonDecodeError
  | valueError
  | typeError
  | notImplementedError
  | malformedSourceError
  | duplicateIdentifierError
  | danglingReferenceError
  | unknownClassError
  | incompatibleFeatureLayoutError
  deriving DecidableEq, Repr

/-- Backing-store formats distinguished by `Graph.__init__` / the loaders. -/
inductive GFormat where
  | neo4j
  | networkx
  | graphsage
  | dgl
  deriving DecidableEq, Repr

/-- Abstract result of `json_graph.node_link_graph(json.load(...))`:
a NetworkX graph given by its node list and link list. -/
structure NodeLinkGraph where
  nodes : List Nat
  links : List (Nat × Nat)
  deriving DecidableEq, Repr

/-- Result of parsing `{prefix}-id_map.json`: a JSON object mapping external
id strings to integers. -/
abbrev IdMap := List (String × Nat)

/-- Result of parsing `{prefix}-class_map.json`: a JSON object mapping
external ids to one-hot membership lists. -/
abbrev ClassMap := List (String × List Nat)

/-- Abstract result of `np.load` on `{prefix}-feats.npy`: a numeric array,
carried opaquely (its entries are never inspected by the loader). -/
abbrev FeatsArray := List (List Int)

/-- One file of the modelled file system.  Each field records what the
corresponding Python parser would produce on this file's bytes: `none`
means that parser raises (unparsable for that format).  `lines` is the
result of iterating over the opened text file, which succeeds on any
existing file. -/
structure FileContent where
  asNodeLinkGraph : Option NodeLinkGraph
  asIdMap : Option IdMap
  asClassMap : Option ClassMap
  asNpy : Option FeatsArray
  lines : List String
  deriving DecidableEq, Repr

/-- The modelled directory tree: a finite map from path strings to files. -/
abbrev FS := List (String × FileContent)

/-- Path lookup; `none` models the absence of the file (opening it raises
FileNotFoundError). -/
def fsLookup : FS → String → Option FileContent
  | [], _ => none
  | (q, c) :: rest, p => if q = p then some c else fsLookup rest p

/-- `s.startswith('/')` on the character list of `s`. -/
def strStartsWithSlash (s : String) : Bool :=
  match s.data with
  | [] => false
  | c :: _ => c = '/'

/-- `s.endswith('/')` on the character list of `s`. -/
def strEndsWithSlash (s : String) : Bool :=
  s.data.getLast? = some '/'

/-- `os.path.join(d, name)` for two POSIX components, mirroring
`posixpath.join`: an absolute second component discards the first; an empty
first component or one ending in the separator is concatenated directly;
otherwise a separator is inserted. -/
def osPathJoin (d name : String) : String :=
  if strStartsWithSlash name then name
  else if d.data = [] then name
  else if strEndsWithSlash d then d ++ name
  else d ++ "/" ++ name

/-- `json_graph.node_link_graph(json.load(open(p, 'r')))`: FileNotFoundError
when the file is absent, a parse error when its contents do not parse as a
node-link JSON graph. -/
def readJsonGraph (fs : FS) (p : String) : Except PyExc NodeLinkGraph :=
  match fsLookup fs p with
  | none => Except.error PyExc.fileNotFoundError
  | some c =>
    match c.asNodeLinkGraph with
    | none => Except.error PyExc.jsonDecodeError
    | some g => Except.ok g

/-- `json.load(open(p, 'r'))` read as an id map. -/
def readIdMap (fs : FS) (p : String) : Except PyExc IdMap :=
  match fsLookup fs p with
  | none => Except.error PyExc.fileNotFoundError
  | some c =>
    match c.asIdMap with
    | none => Except.error PyExc.jsonDecodeError
    | some m => Except.ok m

/-- The `try: class_map = json.load(open(p, 'r')) except FileNotFoundError:
class_map = None` block: absence is caught and becomes `none`; a present but
unparsable file still raises (only FileNotFoundError is handled). -/
def readClassMapOpt (fs : FS) (p : String) : Except PyExc (Option ClassMap) :=
  match fsLookup fs p with
  | none => Except.ok none
  | some c =>
    match c.asClassMap with
    | none => Except.error PyExc.jsonDecodeError
    | some cm => Except.ok (some cm)

/-- The `try: feats_map = np.load(p) except FileNotFoundError: feats_map =
None` block: absence is caught; a present but unreadable array raises
ValueError, which is not handled. -/
def readNpyOpt (fs : FS) (p : String) : Except PyExc (Option FeatsArray) :=
  match fsLookup fs p with
  | none => Except.ok none
  | some c =>
    match c.asNpy with
    | none => Except.error PyExc.valueError
    | some a => Except.ok (some a)

/-- The `try: walks = []; with open(p, 'r') as fp: for l in fp:
walks.append(l) except FileNotFoundError: walks = None` block: the raw
lines of the file when it exists, `none` otherwise.  Reading never fails on
an existing file and performs no parsing or validation of the lines. -/
def readWalksOpt (fs : FS) (p : String) : Option (List String) :=
  match fsLookup fs p with
  | none => none
  | some c => some c.lines

/-- The keyword arguments passed to the `GraphSAGE(...)` constructor at the
end of `Graph.from_graphsage`: `graph`, `node_map`, `node_classes`,
`node_features`.  No walk data is passed. -/
structure GraphSAGEData where
  graph : NodeLinkGraph
  node_map : IdMap
  node_classes : Option ClassMap
  node_features : Option FeatsArray
  deriving DecidableEq, Repr

/-- The `Graph` wrapper object: `self._data` plus the format tag that
`Graph.__init__` derives from the runtime type of the data. -/
structure Graph (α : Type) where
  _data : α
  format : GFormat
  deriving DecidableEq, Repr

/-- Path of `{prefix}-G.json` under `directory` (graph.py line 196). -/
def gJsonPath (pfx dir : String) : String := osPathJoin dir (pfx ++ "-G.json")

/-- Path of `{prefix}-id_map.json` under `directory` (graph.py line 197). -/
def idMapPath (pfx dir : String) : String := osPathJoin dir (pfx ++ "-id_map.json")

/-- Path of `{prefix}-class_map.json` under `directory` (graph.py line 198). -/
def classMapPath (pfx dir : String) : String := osPathJoin dir (pfx ++ "-class_map.json")

/-- Path of `{prefix}-feats.npy` under `directory` (graph.py line 199). -/
def featsPath (pfx dir : String) : String := osPathJoin dir (pfx ++ "-feats.npy")

/-- Path of `{prefix}-walks.txt` under `directory` (graph.py line 200). -/
def walksPath (pfx dir : String) : String := osPathJoin dir (pfx ++ "-walks.txt")

/-- `Graph.from_graphsage(prefix, directory)` (graph.py lines 143-227),
evaluated against the modelled file system `fs`.  Returns the outcome
(either the constructed `Graph` or the first propagated exception) together
with the ordered trace of file paths whose opening was attempted.

With `directory = none` (the declared default), `os.path.join(None, ...)`
raises TypeError before any file is touched.  The walks file is read into a
local variable that is not passed to the `GraphSAGE` constructor, mirroring
lines 215-227 of the source. -/
def Graph.from_graphsage (pfx : String) (directory : Option String) (fs : FS) :
    Except PyExc (Graph GraphSAGEData) × List String :=
  match directory with
  | none => (Except.error PyExc.typeError, [])
  | some dir =>
    let nx_json_file := gJsonPath pfx dir
    let id_map_file := idMapPath pfx dir
    let class_map_file := classMapPath pfx dir
    let feats_map_file := featsPath pfx dir
    let walks_file := walksPath pfx dir
    match readJsonGraph fs nx_json_file with
    | Except.error e => (Except.error e, [nx_json_file])
    | Except.ok g =>
      match readIdMap fs id_map_file with
      | Except.error e => (Except.error e, [nx_json_file, id_map_file])
      | Except.ok idm =>
        match readClassMapOpt fs class_map_file with
        | Except.error e =>
          (Except.error e, [nx_json_file, id_map_file, class_map_file])
        | Except.ok class_map =>
          match readNpyOpt fs feats_map_file with
          | Except.error e =>
            (Except.error e,
             [nx_json_file, id_map_file, class_map_file, feats_map_file])
          | Except.ok feats_map =>
            let _walks := readWalksOpt fs walks_file
            (Except.ok
              { _data :=
                  { graph := g, node_map := idm, node_classes := class_map,
                    node_features := feats_map },
                format := GFormat.graphsage },
             [nx_json_file, id_map_file, class_map_file, feats_map_file,
              walks_file])

/-- `Graph.from_neo4j` (graph.py lines 135-137): unconditionally
`raise NotImplementedError`. -/
def Graph.from_neo4j : Except PyExc (Graph GraphSAGEData) :=
  Except.error PyExc.notImplementedError

/-- `Graph.from_networkx` (graph.py lines 139-141): unconditionally
`raise NotImplementedError`. -/
def Graph.from_networkx : Except PyExc (Graph GraphSAGEData) :=
  Except.error PyExc.notImplementedError

/-- `Graph.from_dgl` (graph.py lines 229-231): unconditionally
`raise NotImplementedError`. -/
def Graph.from_dgl : Except PyExc (Graph GraphSAGEData) :=
  Except.error PyExc.notImplementedError

/-
Spec-modelled canonical model.  The data classes of
comptox_ai/graph/io.py (GraphDataMixin and its implementations), the
`add_node` implementation behind the abstract `Graph.add_node`, the
`id_map` property behind the abstract `Graph.id_map`, and the
`convert_inplace` operation referenced by the module docstring are not
among the analysed sources; they are modelled from the specification
(sections 3, 4.1, 4.3 and 7) below.
-/

/-- Modelled from the spec: the Heterogeneity Descriptor of section 3 —
the set of node classes and the set of edge classes of the backing data
(comptox_ai/graph/io.py is not among the analysed sources). -/
structure HetDescriptor where
  nodeClasses : List String
  edgeClasses : List String
  deriving DecidableEq, Repr

/-- Modelled from the spec: the canonical backing data owned by a `Graph`
(io.py is not among the analysed sources): node and edge collections, a
per-class Identity Map listing each class's external ids in dense internal
order, and the Heterogeneity Descriptor. -/
structure CanonicalData where
  nodes : List (String × String)
  edges : List (String × String)
  idMap : List (String × List String)
  descriptor : HetDescriptor
  deriving DecidableEq, Repr

/-- Modelled from the spec: the `_is_heterogeneous` flag of the backing
data, true iff the Heterogeneity Descriptor lists more than one node class
or more than one edge class (spec section 4.1). -/
def CanonicalData._is_heterogeneous (d : CanonicalData) : Bool :=
  decide (1 < d.descriptor.nodeClasses.length) ||
    decide (1 < d.descriptor.edgeClasses.length)

/-- `Graph.is_heterogeneous` (graph.py lines 131-133):
`return self._data._is_heterogeneous`. -/
def Graph.is_heterogeneous (g : Graph CanonicalData) : Bool :=
  g._data._is_heterogeneous

/-- Modelled from the spec: the `id_map` read-only view of the GraphSAGE
backing data (the abstract property at graph.py lines 118-121 is
implemented in io.py, not among the analysed sources): it exposes the
stored external-id-to-dense-index mapping. -/
def GraphSAGEData.id_map (d : GraphSAGEData) : IdMap := d.node_map

/-- Dense id list recorded for class `c` in a per-class Identity Map
(empty for an unknown class). -/
def lookupClassIds : List (String × List String) → String → List String
  | [], _ => []
  | e :: rest, c => if e.fst = c then e.snd else lookupClassIds rest c

/-- The dense external ids registered for class `c` (empty for an unknown
class). -/
def classIds (d : CanonicalData) (c : String) : List String :=
  lookupClassIds d.idMap c

/-- Append `ext` to class `c`'s dense id list (creating the class entry when
absent). -/
def appendId : List (String × List String) → String → String → List (String × List String)
  | [], c, ext => [(c, [ext])]
  | e :: rest, c, ext =>
    if e.fst = c then (e.fst, e.snd ++ [ext]) :: rest
    else e :: appendId rest c ext

/-- Modelled from the spec: registration of one new node — the external id
is appended at the next dense internal index of its class, and the class is
recorded in the Heterogeneity Descriptor. -/
def registerNode (d : CanonicalData) (c ext : String) : CanonicalData :=
  { d with
    nodes := d.nodes ++ [(c, ext)],
    idMap := appendId d.idMap c ext,
    descriptor :=
      if c ∈ d.descriptor.nodeClasses then d.descriptor
      else { d.descriptor with nodeClasses := d.descriptor.nodeClasses ++ [c] } }

/-- Modelled from the spec: `add_node` (spec section 4.1; the abstract
method at graph.py lines 107-109 is implemented outside the analysed
sources).  The node is a (class, external id) pair; a duplicate external id
for its class fails with DuplicateIdentifierError and the state is returned
unchanged, otherwise the node is registered at the next dense index.  The
post-state is returned alongside the error, modelling the in-place update.
-/
def Graph.add_node (g : Graph CanonicalData) (n : String × String) :
    Graph CanonicalData × Option PyExc :=
  if n.snd ∈ classIds g._data n.fst then
    (g, some PyExc.duplicateIdentifierError)
  else
    ({ g with _data := registerNode g._data n.fst n.snd }, none)

/-- Modelled from the spec: which target formats can serialize a
heterogeneous feature layout (spec section 4.2; the GraphSAGE docstring in
graph.py notes its feats serialization "is currently not compatible with
heterogeneous graphs"). -/
def supportsHeterogeneousFeatures : GFormat → Bool
  | GFormat.neo4j => true
  | GFormat.networkx => true
  | GFormat.graphsage => false
  | GFormat.dgl => false

/-- Modelled from the spec: `convert_inplace(to=G)` (spec section 4.3; the
operation appears only in the module docstring of graph.py and is not among
the analysed sources).  On a heterogeneous model whose target supports only
a homogeneous feature layout it fails with IncompatibleFeatureLayoutError
and returns the state unchanged; otherwise it retags the object's format.
The post-state is returned alongside the error, modelling the in-place
update. -/
def Graph.convert_inplace (g : Graph CanonicalData) (tgt : GFormat) :
    Graph CanonicalData × Option PyExc :=
  if g._data._is_heterogeneous && !(supportsHeterogeneousFeatures tgt) then
    (g, some PyExc.incompatibleFeatureLayoutError)
  else
    ({ g with format := tgt }, none)

/-- Position of `x` in a dense id list: the internal index assigned to an
external id. -/
def posOf (x : String) : List String → Option Nat
  | [] => none
  | y :: ys => if y = x then some 0 else (posOf x ys).map (fun i => i + 1)

/-- An id map is a bijection onto the dense range `[0, n)`: no external id
occurs twice, no internal index occurs twice, and every internal index is
below the number of entries (hence, by counting, every index in `[0, n)` is
hit — no gaps). -/
def isDenseBijection (m : IdMap) : Prop :=
  (m.map Prod.fst).Nodup ∧ (m.map Prod.snd).Nodup ∧
    ∀ v ∈ m.map Prod.snd, v < m.length

instance (m : IdMap) : Decidable (isDenseBijection m) := by
  unfold isDenseBijection
  infer_instance

/-- The five paths whose opening `Graph.from_graphsage` attempts, in source
order (graph.py lines 196-200). -/
def loadPaths (pfx dir : String) : List String :=
  [gJsonPath pfx dir, idMapPath pfx dir, classMapPath pfx dir,
   featsPath pfx dir, walksPath pfx dir]

/- Helper lemmas. -/

theorem readClassMapOpt_absent (fs : FS) (p : String)
    (h : fsLookup fs p = none) : readClassMapOpt fs p = Except.ok none := by
  simp [readClassMapOpt, h]

theorem readNpyOpt_absent (fs : FS) (p : String)
    (h : fsLookup fs p = none) : readNpyOpt fs p = Except.ok none := by
  simp [readNpyOpt, h]

theorem readJsonGraph_congr (fs1 fs2 : FS) (p : String)
    (h : fsLookup fs1 p = fsLookup fs2 p) :
    readJsonGraph fs1 p = readJsonGraph fs2 p := by
  simp [readJsonGraph, h]

theorem readIdMap_congr (fs1 fs2 : FS) (p : String)
    (h : fsLookup fs1 p = fsLookup fs2 p) :
    readIdMap fs1 p = readIdMap fs2 p := by
  simp [readIdMap, h]

theorem readClassMapOpt_congr (fs1 fs2 : FS) (p : String)
    (h : fsLookup fs1 p = fsLookup fs2 p) :
    readClassMapOpt fs1 p = readClassMapOpt fs2 p := by
  simp [readClassMapOpt, h]

theorem readNpyOpt_congr (fs1 fs2 : FS) (p : String)
    (h : fsLookup fs1 p = fsLookup fs2 p) :
    readNpyOpt fs1 p = readNpyOpt fs2 p := by
  simp [readNpyOpt, h]

theorem lookupClassIds_appendId (l : List (String × List String))
    (c ext : String) :
    lookupClassIds (appendId l c ext) c = lookupClassIds l c ++ [ext] := by
  induction l with
  | nil => simp [appendId, lookupClassIds]
  | cons e rest ih =>
    by_cases h : e.fst = c
    · simp [appendId, lookupClassIds, h]
    · simp [appendId, lookupClassIds, h, ih]

theorem classIds_registerNode (d : CanonicalData) (c ext : String) :
    classIds (registerNode d c ext) c = classIds d c ++ [ext] := by
  simp [classIds, registerNode, lookupClassIds_appendId]

theorem posOf_append_self (l : List String) (x : String) (h : x ∉ l) :
    posOf x (l ++ [x]) = some l.length := by
  induction l with
  | nil => simp [posOf]
  | cons y ys ih =>
    simp only [List.mem_cons, not_or] at h
    have hyx : y ≠ x := fun he => h.1 he.symm
    simp [posOf, hyx, ih h.2]

/- Concrete fixtures used by witnesses and counterexamples. -/

/-- A three-node, two-edge node-link graph. -/
def g0 : NodeLinkGraph := { nodes := [0, 1, 2], links := [(0, 1), (1, 2)] }

/-- A file parsable only as a node-link graph. -/
def gFile : FileContent :=
  { asNodeLinkGraph := some g0, asIdMap := none, asClassMap := none,
    asNpy := none, lines := [] }

/-- A file parsable only as an id map, with dense indices 0 and 1. -/
def idFileGood : FileContent :=
  { asNodeLinkGraph := none, asIdMap := some [("a", 0), ("b", 1)],
    asClassMap := none, asNpy := none, lines := [] }

/-- A file parsable only as an id map, with a gap: indices 0 and 2. -/
def idFileGap : FileContent :=
  { asNodeLinkGraph := none, asIdMap := some [("a", 0), ("b", 2)],
    asClassMap := none, asNpy := none, lines := [] }

/-- A walks file whose pairs are not in ascending order of first element. -/
def walksFileOut : FileContent :=
  { asNodeLinkGraph := none, asIdMap := none, asClassMap := none,
    asNpy := none, lines := ["9 0", "0 2"] }

/-- Directory holding only the two mandatory files for prefix `p`. -/
def fsGood : FS :=
  [(gJsonPath "p" "d", gFile), (idMapPath "p" "d", idFileGood)]

/-- The data object `from_graphsage` builds from `fsGood`. -/
def gsGood : GraphSAGEData :=
  { graph := g0, node_map := [("a", 0), ("b", 1)], node_classes := none,
    node_features := none }

/-- Mandatory files for prefix `p2` plus an out-of-order walks file. -/
def fsW1 : FS :=
  [(gJsonPath "p2" "d2", gFile), (idMapPath "p2" "d2", idFileGood),
   (walksPath "p2" "d2", walksFileOut)]

/-- Mandatory files for prefix `p2` only. -/
def fsW2 : FS :=
  [(gJsonPath "p2" "d2", gFile), (idMapPath "p2" "d2", idFileGood)]

/-- Mandatory files for prefix `p3`, with a gapped id map. -/
def fsGap : FS :=
  [(gJsonPath "p3" "d3", gFile), (idMapPath "p3" "d3", idFileGap)]

/-- The data object `from_graphsage` builds from `fsGap`. -/
def gsGap : GraphSAGEData :=
  { graph := g0, node_map := [("a", 0), ("b", 2)], node_classes := none,
    node_features := none }

/-- A heterogeneous canonical graph: two node classes. -/
def gHet : Graph CanonicalData :=
  { _data :=
      { nodes := [], edges := [], idMap := [],
        descriptor := { nodeClasses := ["A", "B"], edgeClasses := [] } },
    format := GFormat.networkx }

/-- A homogeneous canonical graph with one registered Chemical node. -/
def g8 : Graph CanonicalData :=
  { _data :=
      { nodes := [("Chemical", "a")], edges := [],
        idMap := [("Chemical", ["a"])],
        descriptor := { nodeClasses := ["Chemical"], edgeClasses := [] } },
    format := GFormat.graphsage }

/- Claims. -/

/-- C9: for every invocation, the class constructors `Graph.from_neo4j`,
`Graph.from_networkx` and `Graph.from_dgl` raise NotImplementedError — the
graph-database and in-memory-graph-library load paths are unconditionally
unavailable through the `Graph` class. -/
theorem claim_C9_loaders_not_implemented :
    Graph.from_neo4j = Except.error PyExc.notImplementedError ∧
      Graph.from_networkx = Except.error PyExc.notImplementedError ∧
        Graph.from_dgl = Except.error PyExc.notImplementedError :=
  ⟨rfl, rfl, rfl⟩

/-- C10: for every prefix and every file system, calling
`Graph.from_graphsage` with the defaulted `directory = None` raises
TypeError (from `os.path.join(None, ...)`) before any file is opened: the
returned trace of attempted opens is empty. -/
theorem claim_C10_default_directory_fails_before_io (pfx : String) (fs : FS) :
    Graph.from_graphsage pfx none fs = (Except.error PyExc.typeError, []) :=
  rfl

/-- C6: `Graph.is_heterogeneous` returns true if and only if the
Heterogeneity Descriptor of the backing data lists more than one node class
or more than one edge class. -/
theorem claim_C6_is_heterogeneous_iff (g : Graph CanonicalData) :
    Graph.is_heterogeneous g = true ↔
      1 < g._data.descriptor.nodeClasses.length ∨
        1 < g._data.descriptor.edgeClasses.length := by
  simp [Graph.is_heterogeneous, CanonicalData._is_heterogeneous]

/-- C5: whenever `convert_inplace` fails with
IncompatibleFeatureLayoutError, the object is left exactly in its prior
state — in particular its format tag is unchanged (strong exception
safety). -/
theorem claim_C5_convert_inplace_strong_safety (g : Graph CanonicalData)
    (tgt : GFormat)
    (h : (Graph.convert_inplace g tgt).2 =
      some PyExc.incompatibleFeatureLayoutError) :
    (Graph.convert_inplace g tgt).1 = g ∧
      (Graph.convert_inplace g tgt).1.format = g.format := by
  by_cases hc : (g._data._is_heterogeneous &&
      !(supportsHeterogeneousFeatures tgt)) = true
  · simp [Graph.convert_inplace, hc]
  · simp [Graph.convert_inplace, hc] at h

theorem claim_C5_witness :
    (Graph.convert_inplace gHet GFormat.graphsage).2 =
        some PyExc.incompatibleFeatureLayoutError ∧
      (Graph.convert_inplace gHet GFormat.graphsage).1 = gHet :=
  ⟨by decide, (claim_C5_convert_inplace_strong_safety gHet GFormat.graphsage
    (by decide)).1⟩

/-- C8: `add_node` with an external id already registered for its class
fails with DuplicateIdentifierError and leaves the whole prior state
unmodified, while a genuinely new node is assigned the next dense internal
index of its class and its external id is registered. -/
theorem claim_C8_add_node_contract (g : Graph CanonicalData)
    (c ext : String) :
    (ext ∈ classIds g._data c →
      Graph.add_node g (c, ext) = (g, some PyExc.duplicateIdentifierError)) ∧
    (ext ∉ classIds g._data c →
      (Graph.add_node g (c, ext)).2 = none ∧
        posOf ext (classIds (Graph.add_node g (c, ext)).1._data c) =
          some (classIds g._data c).length) := by
  constructor
  · intro h
    simp [Graph.add_node, h]
  · intro h
    refine ⟨by simp [Graph.add_node, h], ?_⟩
    simp [Graph.add_node, h, classIds_registerNode, posOf_append_self _ _ h]

theorem claim_C8_witness :
    ("a" ∈ classIds g8._data "Chemical" ∧
      Graph.add_node g8 ("Chemical", "a") =
        (g8, some PyExc.duplicateIdentifierError)) ∧
    ("b" ∉ classIds g8._data "Chemical" ∧
      (Graph.add_node g8 ("Chemical", "b")).2 = none ∧
        posOf "b" (classIds (Graph.add_node g8 ("Chemical", "b")).1._data
          "Chemical") = some 1) := by
  refine ⟨⟨by decide, (claim_C8_add_node_contract g8 "Chemical" "a").1
    (by decide)⟩, ⟨by decide, ?_⟩⟩
  have h := (claim_C8_add_node_contract g8 "Chemical" "b").2 (by decide)
  exact ⟨h.1, h.2.trans (by decide)⟩

/-- C1: if the mandatory `-G.json` and `-id_map.json` artifacts load
successfully, `from_graphsage` succeeds whatever the presence pattern of
the optional companions, and each absent optional companion is carried as
`None` in the resulting model rather than aborting the load. -/
theorem claim_C1_optional_absence_degrades_to_none (pfx dir : String)
    (fs : FS) (g : NodeLinkGraph) (m : IdMap) (co : Option ClassMap)
    (fo : Option FeatsArray)
    (hg : readJsonGraph fs (gJsonPath pfx dir) = Except.ok g)
    (hm : readIdMap fs (idMapPath pfx dir) = Except.ok m)
    (hc : readClassMapOpt fs (classMapPath pfx dir) = Except.ok co)
    (hf : readNpyOpt fs (featsPath pfx dir) = Except.ok fo) :
    (Graph.from_graphsage pfx (some dir) fs).1 =
      Except.ok
        { _data :=
            { graph := g, node_map := m, node_classes := co,
              node_features := fo },
          format := GFormat.graphsage } ∧
    (fsLookup fs (classMapPath pfx dir) = none → co = none) ∧
    (fsLookup fs (featsPath pfx dir) = none → fo = none) := by
  refine ⟨by simp [Graph.from_graphsage, hg, hm, hc, hf], ?_, ?_⟩
  · intro habs
    have h2 := (readClassMapOpt_absent fs _ habs).symm.trans hc
    injection h2 with h3
    exact h3.symm
  · intro habs
    have h2 := (readNpyOpt_absent fs _ habs).symm.trans hf
    injection h2 with h3
    exact h3.symm

theorem claim_C1_witness :
    (Graph.from_graphsage "p" (some "d") fsGood).1 =
      Except.ok { _data := gsGood, format := GFormat.graphsage } ∧
      gsGood.node_classes = none ∧ gsGood.node_features = none :=
  ⟨(claim_C1_optional_absence_degrades_to_none "p" "d" fsGood g0
      [("a", 0), ("b", 1)] none none rfl rfl rfl rfl).1, rfl, rfl⟩

/-- C2 (counterexample to the claim as stated): with both mandatory files
missing, `from_graphsage` fails with FileNotFoundError, which is not
MalformedSourceError. -/
theorem claim_C2_counterexample :
    (Graph.from_graphsage "p" (some "d") []).1 =
        Except.error PyExc.fileNotFoundError ∧
      PyExc.fileNotFoundError ≠ PyExc.malformedSourceError :=
  ⟨rfl, by decide⟩

/-- C2 (amended): a missing or unparsable mandatory artifact makes
`from_graphsage` fail with the underlying exception (FileNotFoundError or
a JSON parse error), which propagates immediately: no graph object is
returned and no further file is opened. -/
theorem claim_C2_mandatory_failure_propagates (pfx dir : String) (fs : FS)
    (e : PyExc) :
    (readJsonGraph fs (gJsonPath pfx dir) = Except.error e →
      Graph.from_graphsage pfx (some dir) fs =
        (Except.error e, [gJsonPath pfx dir])) ∧
    (∀ g, readJsonGraph fs (gJsonPath pfx dir) = Except.ok g →
      readIdMap fs (idMapPath pfx dir) = Except.error e →
      Graph.from_graphsage pfx (some dir) fs =
        (Except.error e, [gJsonPath pfx dir, idMapPath pfx dir])) := by
  constructor
  · intro h
    simp [Graph.from_graphsage, h]
  · intro g hg hm
    simp [Graph.from_graphsage, hg, hm]

theorem claim_C2_witness :
    Graph.from_graphsage "q" (some "e") [] =
      (Except.error PyExc.fileNotFoundError, [gJsonPath "q" "e"]) :=
  (claim_C2_mandatory_failure_propagates "q" "e" []
    PyExc.fileNotFoundError).1 rfl

/-- C3 (counterexample to the claim as stated): a present walks file —
here with pairs not in ascending order — is read but leaves the load
result identical to the one obtained without any walks file, so the walk
list is not stored in the resulting graph object. -/
theorem claim_C3_counterexample :
    fsLookup fsW1 (walksPath "p2" "d2") = some walksFileOut ∧
      fsLookup fsW2 (walksPath "p2" "d2") = none ∧
      Graph.from_graphsage "p2" (some "d2") fsW1 =
        Graph.from_graphsage "p2" (some "d2") fsW2 :=
  ⟨rfl, rfl, rfl⟩

/-- C3 (amended): the walks file is opened and read line by line with no
validation of its contents or of the ascending-by-first-element ordering,
but the resulting list is discarded — it is not passed to the constructed
data object, so the entire load outcome depends only on the other four
paths. -/
theorem claim_C3_walks_read_but_discarded (pfx dir : String)
    (fs1 fs2 : FS)
    (h1 : fsLookup fs1 (gJsonPath pfx dir) = fsLookup fs2 (gJsonPath pfx dir))
    (h2 : fsLookup fs1 (idMapPath pfx dir) = fsLookup fs2 (idMapPath pfx dir))
    (h3 : fsLookup fs1 (classMapPath pfx dir) =
      fsLookup fs2 (classMapPath pfx dir))
    (h4 : fsLookup fs1 (featsPath pfx dir) = fsLookup fs2 (featsPath pfx dir)) :
    Graph.from_graphsage pfx (some dir) fs1 =
      Graph.from_graphsage pfx (some dir) fs2 := by
  have hg := readJsonGraph_congr fs1 fs2 (gJsonPath pfx dir) h1
  have hm := readIdMap_congr fs1 fs2 (idMapPath pfx dir) h2
  have hc := readClassMapOpt_congr fs1 fs2 (classMapPath pfx dir) h3
  have hf := readNpyOpt_congr fs1 fs2 (featsPath pfx dir) h4
  simp only [Graph.from_graphsage]
  rw [hg, hm, hc, hf]

theorem claim_C3_witness :
    Graph.from_graphsage "p2" (some "d2") fsW1 =
      Graph.from_graphsage "p2" (some "d2") fsW2 :=
  claim_C3_walks_read_but_discarded "p2" "d2" fsW1 fsW2 rfl rfl rfl rfl

/-- C4: `from_graphsage` attempts to open only the five paths obtained by
joining the directory with the prefix and the suffixes -G.json,
-id_map.json, -class_map.json, -feats.npy, -walks.txt; every attempted
trace is a prefix of that list, and a successful load opens exactly the
five, in order. -/
theorem claim_C4_reads_exactly_five_paths (pfx dir : String) (fs : FS) :
    (Graph.from_graphsage pfx (some dir) fs).2 <+: loadPaths pfx dir ∧
    (∀ r, (Graph.from_graphsage pfx (some dir) fs).1 = Except.ok r →
      (Graph.from_graphsage pfx (some dir) fs).2 = loadPaths pfx dir) := by
  cases hg : readJsonGraph fs (gJsonPath pfx dir) with
  | error e =>
    constructor
    · show (Graph.from_graphsage pfx (some dir) fs).2 <+: loadPaths pfx dir
      simp only [Graph.from_graphsage, hg, loadPaths]
      exact ⟨[idMapPath pfx dir, classMapPath pfx dir, featsPath pfx dir,
        walksPath pfx dir], rfl⟩
    · intro r hr
      simp [Graph.from_graphsage, hg] at hr
  | ok g =>
    cases hm : readIdMap fs (idMapPath pfx dir) with
    | error e =>
      constructor
      · simp only [Graph.from_graphsage, hg, hm, loadPaths]
        exact ⟨[classMapPath pfx dir, featsPath pfx dir, walksPath pfx dir],
          rfl⟩
      · intro r hr
        simp [Graph.from_graphsage, hg, hm] at hr
    | ok m =>
      cases hc : readClassMapOpt fs (classMapPath pfx dir) with
      | error e =>
        constructor
        · simp only [Graph.from_graphsage, hg, hm, hc, loadPaths]
          exact ⟨[featsPath pfx dir, walksPath pfx dir], rfl⟩
        · intro r hr
          simp [Graph.from_graphsage, hg, hm, hc] at hr
      | ok co =>
        cases hf : readNpyOpt fs (featsPath pfx dir) with
        | error e =>
          constructor
          · simp only [Graph.from_graphsage, hg, hm, hc, hf, loadPaths]
            exact ⟨[walksPath pfx dir], rfl⟩
          · intro r hr
            simp [Graph.from_graphsage, hg, hm, hc, hf] at hr
        | ok fo =>
          constructor
          · simp only [Graph.from_graphsage, hg, hm, hc, hf, loadPaths]
            exact ⟨[], by simp⟩
          · intro r hr
            simp [Graph.from_graphsage, hg, hm, hc, hf, loadPaths]

theorem claim_C4_witness :
    (Graph.from_graphsage "p" (some "d") fsGood).2 = loadPaths "p" "d" :=
  (claim_C4_reads_exactly_five_paths "p" "d" fsGood).2
    { _data := gsGood, format := GFormat.graphsage } rfl

/-- C7 (counterexample to the claim as stated): `from_graphsage` accepts an
id map with a gap (indices 0 and 2 for two entries) without complaint, and
the resulting graph's exposed `id_map` is not a bijection onto `[0, n)`. -/
theorem claim_C7_counterexample :
    (Graph.from_graphsage "p3" (some "d3") fsGap).1 =
        Except.ok { _data := gsGap, format := GFormat.graphsage } ∧
      ¬ isDenseBijection (GraphSAGEData.id_map gsGap) :=
  ⟨rfl, by decide⟩

/-- C7 (amended): `from_graphsage` performs no validation of the identity
map: every successful load exposes through `id_map` exactly the mapping
parsed from `{prefix}-id_map.json`, so the exposed map is a bijection onto
the dense range `[0, n)` precisely when the source file's mapping is. -/
theorem claim_C7_id_map_stored_verbatim (pfx dir : String) (fs : FS)
    (g : Graph GraphSAGEData)
    (h : (Graph.from_graphsage pfx (some dir) fs).1 = Except.ok g) :
    readIdMap fs (idMapPath pfx dir) =
        Except.ok (GraphSAGEData.id_map g._data) ∧
      ∀ m, readIdMap fs (idMapPath pfx dir) = Except.ok m →
        (isDenseBijection (GraphSAGEData.id_map g._data) ↔
          isDenseBijection m) := by
  cases hg : readJsonGraph fs (gJsonPath pfx dir) with
  | error e => simp [Graph.from_graphsage, hg] at h
  | ok gg =>
    cases hm : readIdMap fs (idMapPath pfx dir) with
    | error e => simp [Graph.from_graphsage, hg, hm] at h
    | ok m0 =>
      cases hc : readClassMapOpt fs (classMapPath pfx dir) with
      | error e => simp [Graph.from_graphsage, hg, hm, hc] at h
      | ok co =>
        cases hf : readNpyOpt fs (featsPath pfx dir) with
        | error e => simp [Graph.from_graphsage, hg, hm, hc, hf] at h
        | ok fo =>
          simp only [Graph.from_graphsage, hg, hm, hc, hf,
            Except.ok.injEq] at h
          subst h
          refine ⟨by simp [GraphSAGEData.id_map], ?_⟩
          intro m hm2
          injection hm2 with h3
          simp [GraphSAGEData.id_map, h3]

theorem claim_C7_witness :
    readIdMap fsGood (idMapPath "p" "d") =
      Except.ok (GraphSAGEData.id_map gsGood) :=
  (claim_C7_id_map_stored_verbatim "p" "d" fsGood
    { _data := gsGood, format := GFormat.graphsage } rfl).1
